import Mathlib

/-!
Verification development for the auth-app backend (Express + Prisma).

Shallow embedding of the account state machine found in
`src/backend/src/routes/auth.ts`, `src/backend/src/routes/user.ts` and the
Google OAuth verify callback (`passport.use(new GoogleStrategy(...))`).

The persistent store is a list of `User` rows. Prisma primitives are
embedded as: `findUnique` = `List.find?` on the relevant column, `create` =
append, `update` (by id) = pointwise map on the matching row. External
primitives (bcrypt hash/compare, JWT, Cloudinary upload) are parameters of
the operations: `bhash : String → String`, `bcompare : String → String → Bool`,
and the upload outcome is part of the request value. JavaScript truthiness
of optional request fields is made explicit (`truthyS`, `truthyI`): a missing
field and the empty string are both falsy, a supplied number 0 is falsy.
A JSON response field that is omitted (Prisma `select` without `password`,
or the `userWithoutPassword` destructuring) is modelled as the field being
`none` in the response payload.
-/

namespace AuthApp

/-- A persisted `User` row, after `prisma/migrations/20250730082712_init`
plus the columns the handlers actually use (`password`, `age` and `gender`
are nullable in the code paths: OAuth users are created with
`age: null, gender: null`). Timestamps are omitted; no claim mentions them. -/
structure User where
  id : String
  name : String
  email : String
  password : Option String
  age : Option Int
  gender : Option String
  profilePicture : Option String
  provider : String
  googleId : Option String
  isProfileComplete : Bool
  deriving DecidableEq

/-- The database: the `User` table contents, in insertion order. -/
abbrev DB := List User

/-- JavaScript truthiness of an optional string field: `undefined`/absent and
`""` are falsy. -/
def truthyS : Option String → Bool
  | none => false
  | some s => s ≠ ""

/-- JavaScript truthiness of an optional numeric field: absent and `0` are
falsy. -/
def truthyI : Option Int → Bool
  | none => false
  | some n => n ≠ 0

/-- ASCII `toLowerCase`, character-structural so that closed instances
evaluate (the emails and genders the handlers compare are ASCII). -/
def lowerStr (s : String) : String := ⟨s.data.map Char.toLower⟩

/-- A character allowed by the class `[^\s@]` of the signup email regex. -/
def emailChar (c : Char) : Bool := !c.isWhitespace && c != '@'

/-- Split a character list at its first occurrence of `c`. -/
def breakAt (c : Char) : List Char → Option (List Char × List Char)
  | [] => none
  | x :: xs =>
    if x = c then some ([], xs)
    else (breakAt c xs).map (fun p => (x :: p.1, p.2))

/-- `isValidEmail` from `auth.ts`: the regex `^[^\s@]+@[^\s@]+\.[^\s@]+$`.
A nonempty local part of `[^\s@]` characters, one `@`, then a domain of
`[^\s@]` characters containing a dot that is neither its first nor its last
character (the regex backtracks over which dot to use; `.` itself is inside
the class, so extra dots are allowed). -/
def isValidEmail (email : String) : Bool :=
  match breakAt '@' email.data with
  | none => false
  | some (lp, dom) =>
      !lp.isEmpty && lp.all emailChar && dom.all emailChar &&
        ((dom.drop 1).dropLast.contains '.')

/-- `isValidAge` from `auth.ts`/`user.ts`: `age >= 13 && age <= 120`. -/
def isValidAge (age : Int) : Bool := 13 ≤ age && age ≤ 120

/-- The gender whitelist from `auth.ts`/`user.ts`. -/
def genderOptions : List String := ["male", "female", "other", "prefer-not-to-say"]

/-- `isValidGender`: membership of the lower-cased input in the whitelist. -/
def isValidGender (g : String) : Bool := genderOptions.contains (lowerStr g)

/-- `prisma.user.findUnique({ where: { email } })`. -/
def findByEmail (e : String) (db : DB) : Option User :=
  db.find? (fun u => u.email == e)

/-- `prisma.user.findUnique({ where: { id } })`. -/
def findById (i : String) (db : DB) : Option User :=
  db.find? (fun u => u.id == i)

/-- `prisma.user.update({ where: { id }, data })`: rewrite the matching row. -/
def dbUpdate (i : String) (f : User → User) (db : DB) : DB :=
  db.map (fun u => if u.id == i then f u else u)

/-- An HTTP-level outcome: an error with its status and `error` body, or a
success carrying the response payload. -/
inductive HRes (α : Type) where
  | err (status : Nat) (error : String)
  | ok (value : α)
  deriving DecidableEq

/-- Whether an outcome is a success. -/
def HRes.isOk : HRes α → Bool
  | .ok _ => true
  | .err _ _ => false

/-- The HTTP status of an outcome (successes in these handlers are 200/201;
we only distinguish them from errors). -/
def HRes.status : HRes α → Nat
  | .ok _ => 200
  | .err s _ => s

/-- Response shaping used by login (`userWithoutPassword`) and by every
`select` that omits `password`: the hash is absent from the payload. -/
def sanitize (u : User) : User := { u with password := none }

/-- Request body of `POST /signup` (multipart): `file` is `none` when no
picture is sent, `some none` when the Cloudinary upload fails, and
`some (some url)` when it succeeds with `url`. -/
structure SignupReq where
  name : String
  email : String
  password : String
  age : Option Int
  gender : Option String
  file : Option (Option String)
  deriving DecidableEq

/-- `POST /signup` from `auth.ts`: validations, duplicate check on the
lower-cased email, then `prisma.user.create` with
`isProfileComplete: !!(age && gender)`. `newId` is the id the store
generates for the created row. -/
def signup (bhash : String → String) (newId : String) (req : SignupReq)
    (db : DB) : HRes User × DB :=
  if req.name = "" || req.email = "" || req.password = "" then
    (.err 400 "Name, email, and password are required", db)
  else if !isValidEmail req.email then
    (.err 400 "Invalid email format", db)
  else if req.password.length < 6 then
    (.err 400 "Password must be at least 6 characters long", db)
  else if truthyI req.age && !isValidAge (req.age.getD 0) then
    (.err 400 "Age must be between 13 and 120", db)
  else if truthyS req.gender && !isValidGender (req.gender.getD "") then
    (.err 400 "Invalid gender selection", db)
  else
    match findByEmail (lowerStr req.email) db with
    | some _ => (.err 400 "User with this email already exists", db)
    | none =>
      match req.file with
      | some none => (.err 400 "Failed to upload image", db)
      | f =>
        let pic : Option String :=
          match f with
          | some (some url) => some url
          | _ => none
        let u : User :=
          { id := newId
            name := req.name
            email := lowerStr req.email
            password := some (bhash req.password)
            age := if truthyI req.age then req.age else none
            gender := if truthyS req.gender then req.gender.map lowerStr else none
            profilePicture := pic
            provider := "credentials"
            googleId := none
            isProfileComplete := truthyI req.age && truthyS req.gender }
        (.ok (sanitize u), db ++ [u])

/-- Request body of `POST /login`. Missing fields are the empty string. -/
structure LoginReq where
  email : String
  password : String
  deriving DecidableEq

/-- `POST /login` from `auth.ts`: lookup by lower-cased email, the
no-password (OAuth) branch, then `bcrypt.compare`. Read-only. -/
def login (bcompare : String → String → Bool) (req : LoginReq) (db : DB) :
    HRes User :=
  if req.email = "" || req.password = "" then
    .err 400 "Email and password are required"
  else if !isValidEmail req.email then
    .err 400 "Invalid email format"
  else
    match findByEmail (lowerStr req.email) db with
    | none => .err 401 "Invalid credentials"
    | some u =>
      if !truthyS u.password then .err 401 "Please login with Google"
      else if !bcompare req.password (u.password.getD "") then
        .err 401 "Invalid credentials"
      else .ok (sanitize u)

/-- The verified Google profile handed to the GoogleStrategy verify
callback: external id, display name, email list, photo list. -/
structure GoogleProfile where
  id : String
  displayName : String
  emails : List String
  photos : List String
  deriving DecidableEq

/-- The row `prisma.user.create` receives in the verify callback's
new-user branch: `provider: "google"`, null age/gender,
`isProfileComplete: false`, picture from the first profile photo. -/
def freshGoogleUser (gp : GoogleProfile) (newId : String) (email : String) :
    User :=
  { id := newId
    name := gp.displayName
    email := email
    password := none
    age := none
    gender := none
    profilePicture := gp.photos.head?
    provider := "google"
    googleId := some gp.id
    isProfileComplete := false }

/-- The GoogleStrategy verify callback from `src/auth/passport` (source file
`src/unnamed/part_001`): takes the first profile email (no lower-casing),
looks it up with `findUnique({ where: { email } })`, creates a fresh user
(`provider: "google"`, `isProfileComplete: false`) when absent, otherwise
updates the found row: sets `googleId` and `provider`, refreshes the picture
only if unset, the name only if different, and recomputes
`isProfileComplete` from the stored `age`/`gender`. Returns `none` when the
profile has no usable email (the callback errors out). -/
def googleVerify (gp : GoogleProfile) (newId : String) (db : DB) :
    Option User × DB :=
  match gp.emails.head? with
  | none => (none, db)
  | some email =>
    if email = "" then (none, db)
    else
      match findByEmail email db with
      | none =>
        let u : User := freshGoogleUser gp newId email
        (some u, db ++ [u])
      | some u =>
        let f : User → User := fun v =>
          { v with
            googleId := some gp.id
            provider := "google"
            profilePicture :=
              if !truthyS u.profilePicture && truthyS gp.photos.head? then
                gp.photos.head?
              else v.profilePicture
            name := if u.name ≠ gp.displayName then gp.displayName else v.name
            isProfileComplete := u.age.isSome && u.gender.isSome }
        (some (f u), dbUpdate u.id f db)

/-- Request body of `POST /complete-profile`. -/
structure CompleteReq where
  age : Option Int
  gender : Option String
  password : Option String
  deriving DecidableEq

/-- `POST /complete-profile` from `auth.ts`: token check (`tok` is the
verified token subject, `none` when the header is missing), required/range
validation of age and gender, provider lookup, the optional password for
Google users, then one `prisma.user.update` setting
`isProfileComplete: true`. -/
def completeProfile (bhash : String → String) (tok : Option String)
    (req : CompleteReq) (db : DB) : HRes User × DB :=
  match tok with
  | none => (.err 401 "No token provided", db)
  | some uid =>
    if !truthyI req.age || !truthyS req.gender then
      (.err 400 "Age and gender are required", db)
    else if !isValidAge (req.age.getD 0) then
      (.err 400 "Age must be between 13 and 120", db)
    else if !isValidGender (req.gender.getD "") then
      (.err 400 "Invalid gender selection", db)
    else
      match findById uid db with
      | none => (.err 404 "User not found", db)
      | some cu =>
        if cu.provider == "google" && truthyS req.password &&
            decide ((req.password.getD "").length < 6) then
          (.err 400 "Password must be at least 6 characters long", db)
        else
          let f : User → User := fun v =>
            { v with
              age := req.age
              gender := req.gender.map lowerStr
              isProfileComplete := true
              password :=
                if cu.provider == "google" && truthyS req.password then
                  some (bhash (req.password.getD ""))
                else v.password }
          (.ok (sanitize (f cu)), dbUpdate uid f db)

/-- Request body of `PUT /profile` (multipart), `file` as in `SignupReq`. -/
structure UpdateReq where
  name : String
  age : Option Int
  gender : Option String
  file : Option (Option String)
  deriving DecidableEq

/-- `PUT /profile` from `user.ts`: name required, optional age/gender
validation, picture replacement (the delete of a superseded image is
swallowed), then `prisma.user.update` with `age`/`gender` left unchanged
when absent from the payload but `isProfileComplete: !!(age && gender)`
computed from the payload. `uid` is the authenticated user id. A missing
row makes `prisma.user.update` throw, surfaced as the 500 handler. -/
def updateProfile (req : UpdateReq) (uid : String) (db : DB) :
    HRes User × DB :=
  if req.name = "" then (.err 400 "Name is required", db)
  else if truthyI req.age && !isValidAge (req.age.getD 0) then
    (.err 400 "Age must be between 13 and 120", db)
  else if truthyS req.gender && !isValidGender (req.gender.getD "") then
    (.err 400 "Invalid gender selection", db)
  else
    match req.file with
    | some none => (.err 400 "Failed to upload image", db)
    | f =>
      match findById uid db with
      | none => (.err 500 "Internal server error", db)
      | some cu =>
        let newPic : Option String :=
          match f with
          | some (some url) => some url
          | _ => cu.profilePicture
        let g : User → User := fun v =>
          { v with
            name := req.name
            age := if truthyI req.age then req.age else v.age
            gender :=
              if truthyS req.gender then req.gender.map lowerStr
              else v.gender
            profilePicture := newPic
            isProfileComplete := truthyI req.age && truthyS req.gender }
        (.ok (sanitize (g cu)), dbUpdate uid g db)

/-- `DELETE /profile/picture` from `user.ts`: `!currentUser?.profilePicture`
(absent row or unset/empty picture) yields the NothingToDelete error with no
mutation; otherwise the Cloudinary delete is attempted (failures swallowed)
and the row's `profilePicture` is set to null. -/
def detachPicture (uid : String) (db : DB) : HRes User × DB :=
  match findById uid db with
  | none => (.err 400 "No profile picture to delete", db)
  | some cu =>
    if !truthyS cu.profilePicture then
      (.err 400 "No profile picture to delete", db)
    else
      let f : User → User := fun v => { v with profilePicture := none }
      (.ok (sanitize (f cu)), dbUpdate uid f db)

/-- Request body of `POST /change-password`. -/
structure PwReq where
  currentPassword : Option String
  newPassword : Option String
  deriving DecidableEq

/-- `POST /change-password` from `user.ts`: new-password validation, then
the Google-without-password branch (sets the new hash with no
current-password check), then the required/available/match checks on the
current password before the hash is replaced. -/
def changePassword (bhash : String → String)
    (bcompare : String → String → Bool) (uid : String) (req : PwReq)
    (db : DB) : HRes String × DB :=
  if !truthyS req.newPassword then
    (.err 400 "New password is required", db)
  else if (req.newPassword.getD "").length < 6 then
    (.err 400 "New password must be at least 6 characters long", db)
  else
    match findById uid db with
    | none => (.err 404 "User not found", db)
    | some u =>
      let setPw : User → User := fun v =>
        { v with password := some (bhash (req.newPassword.getD "")) }
      if u.provider == "google" && !truthyS u.password then
        (.ok "Password set successfully", dbUpdate uid setPw db)
      else if !truthyS req.currentPassword then
        (.err 400 "Current password is required", db)
      else if !truthyS u.password then
        (.err 400 "Password change not available for this user", db)
      else if !bcompare (req.currentPassword.getD "") (u.password.getD "") then
        (.err 400 "Current password is incorrect", db)
      else (.ok "Password changed successfully", dbUpdate uid setPw db)

/-- `GET /profile` from `user.ts`: the authenticated user's row, selected
with `password: true` — the full row, hash included, is the payload. -/
def getProfile (uid : String) (db : DB) : HRes User :=
  match findById uid db with
  | none => .err 404 "User not found"
  | some u => .ok u

/-- The spec invariant on one row: `profileComplete` equals the presence of
both `age` and `genderCategory`. -/
def profileFlagConsistent (u : User) : Prop :=
  u.isProfileComplete = (u.age.isSome && u.gender.isSome)

instance (u : User) : Decidable (profileFlagConsistent u) :=
  inferInstanceAs (Decidable (_ = _))

/-- The stored emails, in order. -/
def emailsOf (db : DB) : List String := db.map (fun u => u.email)

/-- Case-sensitive global email uniqueness (what the SQL unique index on
`email` enforces). -/
def ExactUnique (db : DB) : Prop := (emailsOf db).Nodup

/-- Case-insensitive global email uniqueness (the spec's invariant). -/
def CIUnique (db : DB) : Prop :=
  (db.map (fun u => lowerStr u.email)).Nodup

instance (db : DB) : Decidable (ExactUnique db) :=
  inferInstanceAs (Decidable (List.Nodup _))

instance (db : DB) : Decidable (CIUnique db) :=
  inferInstanceAs (Decidable (List.Nodup _))

theorem findByEmail_none_iff (e : String) (db : DB) :
    findByEmail e db = none ↔ ∀ u ∈ db, u.email ≠ e := by
  simp [findByEmail, List.find?_eq_none]

theorem emailsOf_append (db : DB) (x : User) :
    emailsOf (db ++ [x]) = emailsOf db ++ [x.email] := by
  simp [emailsOf]

theorem emailsOf_dbUpdate (i : String) (f : User → User) (db : DB)
    (hf : ∀ v, (f v).email = v.email) :
    emailsOf (dbUpdate i f db) = emailsOf db := by
  induction db with
  | nil => rfl
  | cons u tl ih =>
    have h1 : (if u.id == i then f u else u).email = u.email := by
      split
      · exact hf u
      · rfl
    simp only [emailsOf, dbUpdate, List.map_cons] at ih ⊢
    rw [h1, ih]

theorem exactUnique_append (db : DB) (x : User) (h : ExactUnique db)
    (hx : ∀ u ∈ db, u.email ≠ x.email) : ExactUnique (db ++ [x]) := by
  unfold ExactUnique at h ⊢
  rw [emailsOf_append, List.nodup_append]
  refine ⟨h, List.nodup_singleton _, ?_⟩
  intro a ha hb
  simp only [List.mem_singleton] at hb
  subst hb
  simp only [emailsOf, List.mem_map] at ha
  obtain ⟨u, hu, he⟩ := ha
  exact hx u hu he

theorem findById_dbUpdate (i : String) (f : User → User) (db : DB)
    (hf : ∀ v, (f v).id = v.id) :
    findById i (dbUpdate i f db) = (findById i db).map f := by
  induction db with
  | nil => rfl
  | cons u tl ih =>
    simp only [findById, dbUpdate, List.map_cons, List.find?] at ih ⊢
    by_cases h : (u.id == i) = true
    · rw [if_pos h]
      have h2 : ((f u).id == i) = true := by rw [hf u]; exact h
      rw [h2, h]
      rfl
    · rw [if_neg h]
      rw [Bool.not_eq_true] at h
      rw [h]
      exact ih

theorem findByEmail_append (e : String) (db : DB) (x : User)
    (h : findByEmail e db = none) :
    findByEmail e (db ++ [x]) =
      (if x.email == e then some x else none) := by
  unfold findByEmail at h ⊢
  induction db with
  | nil =>
    simp only [List.nil_append, List.find?]
    split <;> simp_all [List.find?]
  | cons u tl ih =>
    simp only [List.cons_append, List.find?] at h ⊢
    cases hu : (u.email == e) with
    | true => rw [hu] at h; exact absurd h (by simp)
    | false => rw [hu] at h; exact ih h

/-- Every `signup` outcome either leaves the store unchanged, or appends one
row whose email is the lower-cased request email after the duplicate check
found nothing. -/
theorem signup_db_shape (bh : String → String) (nid : String) (req : SignupReq)
    (db : DB) :
    (signup bh nid req db).2 = db ∨
    (findByEmail (lowerStr req.email) db = none ∧
      ∃ u : User, u.email = lowerStr req.email ∧
        (signup bh nid req db).2 = db ++ [u]) := by
  unfold signup
  repeat' split
  all_goals try exact Or.inl rfl
  all_goals exact Or.inr ⟨‹_›, _, rfl, rfl⟩

/-- Every `googleVerify` outcome leaves the store unchanged, appends one row
carrying the profile email after the lookup found nothing, or rewrites one
row without touching any email. -/
theorem googleVerify_db_shape (gp : GoogleProfile) (nid : String) (db : DB) :
    (googleVerify gp nid db).2 = db ∨
    (∃ e, gp.emails.head? = some e ∧ findByEmail e db = none ∧
      ∃ u : User, u.email = e ∧ (googleVerify gp nid db).2 = db ++ [u]) ∨
    (∃ i : String, ∃ f : User → User,
      (googleVerify gp nid db).2 = dbUpdate i f db ∧
        ∀ v, (f v).email = v.email) := by
  unfold googleVerify
  split
  · exact Or.inl rfl
  next e heq =>
    split
    · exact Or.inl rfl
    · split
      next hnone => exact Or.inr (Or.inl ⟨e, heq, hnone, _, rfl, rfl⟩)
      next u hsome =>
        exact Or.inr (Or.inr ⟨u.id, _, rfl, fun v => rfl⟩)

/-- Concrete bcrypt-hash stand-in used by the closed instances below. -/
def exHash : String → String := fun s => s ++ "#h"

/-- Concrete bcrypt-compare stand-in matching `exHash`. -/
def exCompare : String → String → Bool := fun s h => h == s ++ "#h"

/-- A valid local signup: name, email, password, age 25, gender male. -/
def aliceReq : SignupReq :=
  { name := "Alice", email := "a@b.com", password := "secret1",
    age := some 25, gender := some "male", file := none }

/-- The store after `aliceReq` signs up on an empty store. -/
def dbAlice : DB := (signup exHash "u1" aliceReq []).2

/-- The row `dbAlice` holds. -/
def aliceRow : User :=
  { id := "u1", name := "Alice", email := "a@b.com",
    password := some "secret1#h", age := some 25, gender := some "male",
    profilePicture := none, provider := "credentials", googleId := none,
    isProfileComplete := true }

/-- A profile update that changes only the name. -/
def nameOnlyUpdate : UpdateReq :=
  { name := "Alicia", age := none, gender := none, file := none }

/-- A verified Google identity whose email is upper-cased. -/
def gpUpper : GoogleProfile :=
  { id := "g1", displayName := "Ann", emails := ["A@b.com"], photos := [] }

/-- The store after `gpUpper` federated-logs-in on an empty store. -/
def dbUpperG : DB := (googleVerify gpUpper "u1" []).2

/-- A local signup whose email is case-insensitively equal to `gpUpper`'s. -/
def bobReq : SignupReq :=
  { name := "Bob", email := "a@B.com", password := "secret1",
    age := none, gender := none, file := none }

/-- Claim C1: after every state-changing operation, every account's
`profileComplete` flag equals `age set && gender set`. The code violates
this: `PUT /profile` computes `isProfileComplete: !!(age && gender)` from
the request payload while `age: age ? Number(age) : undefined` keeps the
stored values, so a name-only update of a complete profile stores
`isProfileComplete = false` with both `age` and `gender` still set. This
theorem evaluates the code at that failing input: the signup establishes
the flag (`some true`), the update succeeds, and afterwards the row has
`age = 25`, `gender = male`, yet `isProfileComplete = false`. -/
theorem c1_profileComplete_payload_bug :
    (signup exHash "u1" aliceReq []).1.isOk = true ∧
    (findById "u1" dbAlice).map (fun u => decide (profileFlagConsistent u)) =
      some true ∧
    (updateProfile nameOnlyUpdate "u1" dbAlice).1.isOk = true ∧
    (findById "u1" (updateProfile nameOnlyUpdate "u1" dbAlice).2).map
        (fun u => (u.age, u.gender, u.isProfileComplete)) =
      some (some 25, some "male", false) ∧
    (findById "u1" (updateProfile nameOnlyUpdate "u1" dbAlice).2).map
        (fun u => decide (profileFlagConsistent u)) = some false := by
  exact ⟨by decide, by decide, by decide, by decide, by decide⟩

/-- Claim C2 counterexample: from a reachable store holding the locally
signed-up `a@b.com` (case-insensitively unique), a federated login with the
verified email `A@b.com` creates a second account, after which two accounts
differ only in email case — federated login does not preserve
case-insensitive email uniqueness. -/
theorem c2_ci_unique_counterexample :
    CIUnique dbAlice ∧
      (googleVerify gpUpper "u2" dbAlice).1.isSome = true ∧
      ¬ CIUnique (googleVerify gpUpper "u2" dbAlice).2 := by
  exact ⟨by decide, by decide, by decide⟩

/-- Claim C2 (amended): local signup and federated login preserve exact
(case-sensitive) global email uniqueness — the property the SQL unique
index enforces. Case-insensitive uniqueness is not preserved: federated
login looks an email up without lower-casing and may store an email that
differs from an existing one only in case (see the counterexample). -/
theorem c2_exact_unique_preserved (bh : String → String) (nid nid2 : String)
    (req : SignupReq) (gp : GoogleProfile) (db : DB) (h : ExactUnique db) :
    ExactUnique (signup bh nid req db).2 ∧
      ExactUnique (googleVerify gp nid2 db).2 := by
  constructor
  · rcases signup_db_shape bh nid req db with h1 | ⟨hnone, u, hue, h2⟩
    · rw [h1]; exact h
    · rw [h2]
      refine exactUnique_append db u h ?_
      intro v hv
      rw [hue]
      exact (findByEmail_none_iff _ db).mp hnone v hv
  · rcases googleVerify_db_shape gp nid2 db with
      h1 | ⟨e, _, hnone, u, hue, h2⟩ | ⟨i, f, h2, hf⟩
    · rw [h1]; exact h
    · rw [h2]
      refine exactUnique_append db u h ?_
      intro v hv
      rw [hue]
      exact (findByEmail_none_iff _ db).mp hnone v hv
    · rw [h2]
      unfold ExactUnique
      rw [emailsOf_dbUpdate i f db hf]
      exact h

/-- Witness for the amended C2 theorem at a concrete store. -/
theorem c2_exact_unique_preserved_witness :
    ExactUnique ([] : DB) ∧
      (ExactUnique (signup exHash "u9" aliceReq []).2 ∧
        ExactUnique (googleVerify gpUpper "u8" []).2) :=
  ⟨by decide, c2_exact_unique_preserved exHash "u9" "u8" aliceReq gpUpper []
    (by decide)⟩

/-- Claim C3 counterexample: an account registered through federated login
with the stored email `A@b.com` exists; a signup with the case-insensitively
equal email `a@B.com` does not fail with DuplicateEmail — it succeeds and
creates a second account, because the duplicate check compares the
lower-cased request email only against stored emails verbatim. -/
theorem c3_ci_duplicate_counterexample :
    emailsOf dbUpperG = ["A@b.com"] ∧
      lowerStr bobReq.email = lowerStr "A@b.com" ∧
      (signup exHash "u2" bobReq dbUpperG).1.isOk = true ∧
      (signup exHash "u2" bobReq dbUpperG).2.length = 2 := by
  exact ⟨by decide, by decide, by decide, by decide⟩

/-- Claim C3 (amended): a signup whose lower-cased email exactly equals the
stored email of an existing account fails with the DuplicateEmail error and
performs no mutation (validation hypotheses make the earlier checks pass).
Since local signup always stores lower-cased emails, this covers every
case-insensitive duplicate among locally created accounts; an account whose
stored email is not lower-cased (reachable via federated login) escapes the
check, as the counterexample shows. -/
theorem c3_duplicate_exact_check (bh : String → String) (nid : String)
    (req : SignupReq) (db : DB) (u : User)
    (hname : req.name ≠ "") (he : req.email ≠ "") (hp : req.password ≠ "")
    (hv : isValidEmail req.email = true)
    (hlen : ¬ req.password.length < 6)
    (hage : (truthyI req.age && !isValidAge (req.age.getD 0)) = false)
    (hgen : (truthyS req.gender && !isValidGender (req.gender.getD "")) = false)
    (hdup : findByEmail (lowerStr req.email) db = some u) :
    signup bh nid req db =
      (.err 400 "User with this email already exists", db) := by
  unfold signup
  rw [if_neg (by simp [hname, he, hp]), if_neg (by simp [hv]), if_neg hlen,
    if_neg (by simp [hage]), if_neg (by simp [hgen]), hdup]

/-- Witness for the amended C3 theorem: re-signing-up `aliceReq` on the
store that already holds her row is rejected with no mutation. -/
theorem c3_duplicate_exact_check_witness :
    (aliceReq.name ≠ "" ∧ findByEmail (lowerStr aliceReq.email) dbAlice =
      some aliceRow) ∧
      signup exHash "u3" aliceReq dbAlice =
        (.err 400 "User with this email already exists", dbAlice) :=
  ⟨⟨by decide, by decide⟩,
    c3_duplicate_exact_check exHash "u3" aliceReq dbAlice aliceRow
      (by decide) (by decide) (by decide) (by decide) (by decide) (by decide)
      (by decide) (by decide)⟩

/-- Claim C4: for a well-formed login request, the login fails — always with
a 401 credentials rejection — exactly when the account is absent, the
account has no credential hash (the `Please login with Google` branch, the
spec's InvalidCredentials for federated-only accounts), or the supplied
secret does not match the stored hash under `bcrypt.compare`; in every
other case it succeeds. In particular an account whose stored hash is
absent is rejected for every supplied secret. -/
theorem c4_login_failure_iff (bc : String → String → Bool) (req : LoginReq)
    (db : DB) (he : req.email ≠ "") (hp : req.password ≠ "")
    (hv : isValidEmail req.email = true) :
    (((login bc req db).status = 401) ↔
      (match findByEmail (lowerStr req.email) db with
       | none => True
       | some u =>
         truthyS u.password = false ∨
           bc req.password (u.password.getD "") = false)) ∧
      ((login bc req db).status = 401 ∨ (login bc req db).isOk = true) := by
  unfold login
  rw [if_neg (by simp [he, hp]), if_neg (by simp [hv])]
  cases hfind : findByEmail (lowerStr req.email) db with
  | none => simp [HRes.status]
  | some u =>
    cases hpw : truthyS u.password with
    | false => simp [hpw, HRes.status]
    | true =>
      cases hbc : bc req.password (u.password.getD "") with
      | false => simp [hpw, hbc, HRes.status]
      | true => simp [hpw, hbc, HRes.status, HRes.isOk]

/-- Witness for C4: a wrong password against the stored Alice row. -/
theorem c4_login_failure_iff_witness :
    (((login exCompare ⟨"a@b.com", "wrong"⟩ dbAlice).status = 401) ↔
      (match findByEmail (lowerStr "a@b.com") dbAlice with
       | none => True
       | some u =>
         truthyS u.password = false ∨
           exCompare "wrong" (u.password.getD "") = false)) ∧
      ((login exCompare ⟨"a@b.com", "wrong"⟩ dbAlice).status = 401 ∨
        (login exCompare ⟨"a@b.com", "wrong"⟩ dbAlice).isOk = true) :=
  c4_login_failure_iff exCompare ⟨"a@b.com", "wrong"⟩ dbAlice (by decide)
    (by decide) (by decide)

/-- Claim C5: a federated login whose verified email matches no stored
account appends exactly one new row — `provider = "google"`,
`profileComplete = false`, carrying the profile email — and a second
federated login with the same external identity finds that row and leaves
the account count unchanged (it never creates a duplicate). -/
theorem c5_federated_no_duplicate (gp : GoogleProfile) (nid nid2 : String)
    (db : DB) (e : String) (hemail : gp.emails.head? = some e) (hne : e ≠ "")
    (habsent : findByEmail e db = none) :
    (googleVerify gp nid db).1 = some (freshGoogleUser gp nid e) ∧
    (googleVerify gp nid db).2 = db ++ [freshGoogleUser gp nid e] ∧
    (freshGoogleUser gp nid e).provider = "google" ∧
    (freshGoogleUser gp nid e).isProfileComplete = false ∧
    (freshGoogleUser gp nid e).email = e ∧
    ((googleVerify gp nid2 (db ++ [freshGoogleUser gp nid e])).1).isSome =
      true ∧
    (googleVerify gp nid2 (db ++ [freshGoogleUser gp nid e])).2.length =
      db.length + 1 := by
  have h1 : googleVerify gp nid db =
      (some (freshGoogleUser gp nid e), db ++ [freshGoogleUser gp nid e]) := by
    unfold googleVerify
    rw [hemail]
    simp only [hne, if_false, habsent]
  have hfind2 : findByEmail e (db ++ [freshGoogleUser gp nid e]) =
      some (freshGoogleUser gp nid e) := by
    rw [findByEmail_append e db _ habsent]
    simp [freshGoogleUser]
  refine ⟨by rw [h1], by rw [h1], rfl, rfl, rfl, ?_, ?_⟩
  · unfold googleVerify
    rw [hemail]
    simp only [hne, if_false, hfind2]
    rfl
  · unfold googleVerify
    rw [hemail]
    simp only [hne, if_false, hfind2]
    simp [dbUpdate]

/-- Witness for C5: `gpUpper` on the empty store. -/
theorem c5_federated_no_duplicate_witness :
    (gpUpper.emails.head? = some "A@b.com" ∧
      findByEmail "A@b.com" ([] : DB) = none) ∧
      ((googleVerify gpUpper "u1" []).1 =
          some (freshGoogleUser gpUpper "u1" "A@b.com") ∧
        (googleVerify gpUpper "u1" []).2 =
          [] ++ [freshGoogleUser gpUpper "u1" "A@b.com"] ∧
        (freshGoogleUser gpUpper "u1" "A@b.com").provider = "google" ∧
        (freshGoogleUser gpUpper "u1" "A@b.com").isProfileComplete = false ∧
        (freshGoogleUser gpUpper "u1" "A@b.com").email = "A@b.com" ∧
        ((googleVerify gpUpper "u2"
            ([] ++ [freshGoogleUser gpUpper "u1" "A@b.com"])).1).isSome =
          true ∧
        (googleVerify gpUpper "u2"
            ([] ++ [freshGoogleUser gpUpper "u1" "A@b.com"])).2.length =
          List.length ([] : DB) + 1) :=
  ⟨⟨by decide, by decide⟩,
    c5_federated_no_duplicate gpUpper "u1" "u2" [] "A@b.com" (by decide)
      (by decide) (by decide)⟩

/-- Claim C6: a completeProfile request carrying an age outside [13,120]
(age 200, say) fails with a 400 validation error and leaves the store
entirely unchanged — the validation runs before any mutation. (With a
supplied age of 0, which JavaScript treats as falsy, the failure is the
`Age and gender are required` validation error instead of the range error;
either way the response is a 400 and nothing is written.) -/
theorem c6_invalid_age_no_mutation (bh : String → String) (uid : String)
    (req : CompleteReq) (db : DB) (a : Int) (hage : req.age = some a)
    (hbad : a < 13 ∨ 120 < a) :
    ∃ m, completeProfile bh (some uid) req db = (.err 400 m, db) := by
  cases hT : truthyI req.age with
  | false =>
    exact ⟨"Age and gender are required", by unfold completeProfile; simp [hT]⟩
  | true =>
    cases hG : truthyS req.gender with
    | false =>
      exact ⟨"Age and gender are required",
        by unfold completeProfile; simp [hT, hG]⟩
    | true =>
      refine ⟨"Age must be between 13 and 120", ?_⟩
      have hva : isValidAge (req.age.getD 0) = false := by
        rw [hage]
        unfold isValidAge
        rcases hbad with hlt | hgt
        · have hn : ¬ (13 ≤ a) := by omega
          simp [hn]
        · have hn : ¬ (a ≤ 120) := by omega
          simp [hn]
      unfold completeProfile
      simp [hT, hG, hva]

/-- Witness for C6: age 200 against the stored Alice row. -/
theorem c6_invalid_age_no_mutation_witness :
    ((some 200 : Option Int) = some 200 ∧ (120 : Int) < 200) ∧
      ∃ m, completeProfile exHash (some "u1")
          ⟨some 200, some "male", none⟩ dbAlice = (.err 400 m, dbAlice) :=
  ⟨⟨rfl, by decide⟩,
    c6_invalid_age_no_mutation exHash "u1" ⟨some 200, some "male", none⟩
      dbAlice 200 rfl (Or.inr (by decide))⟩

/-- Claim C7: for an authenticated account and a valid new secret, (i) a
`provider = "google"` account with no stored hash gets the new hash set and
the success message with no current-password check at all; (ii) an account
with a stored hash and no current password in the request is rejected with
the required-field validation error; (iii) an account with a stored hash
and a non-matching current password is rejected with the
incorrect-current-password error (the spec's InvalidCredentials kind, which
this route reports with status 400); in cases (ii) and (iii) nothing is
written. -/
theorem c7_change_password_policy (bh : String → String)
    (bc : String → String → Bool) (uid : String) (db : DB) (u : User)
    (np : String) (hfind : findById uid db = some u) (hnp : np ≠ "")
    (hlen : ¬ np.length < 6) :
    (u.provider = "google" → u.password = none → ∀ req : PwReq,
      req.newPassword = some np →
      changePassword bh bc uid req db =
        (.ok "Password set successfully",
          dbUpdate uid (fun v => { v with password := some (bh np) }) db)) ∧
    (∀ req : PwReq, req.newPassword = some np → req.currentPassword = none →
      ∀ h : String, u.password = some h → h ≠ "" →
      changePassword bh bc uid req db =
        (.err 400 "Current password is required", db)) ∧
    (∀ req : PwReq, req.newPassword = some np →
      ∀ h c : String, req.currentPassword = some c → u.password = some h →
      h ≠ "" → c ≠ "" → bc c h = false →
      changePassword bh bc uid req db =
        (.err 400 "Current password is incorrect", db)) := by
  refine ⟨?_, ?_, ?_⟩
  · intro hg hpw req hnew
    unfold changePassword
    simp [hnew, truthyS, hnp, hlen, hfind, hg, hpw]
  · intro req hnew hcur h hpw hh
    unfold changePassword
    simp [hnew, hcur, truthyS, hnp, hlen, hfind, hpw, hh]
  · intro req hnew h c hcur hpw hh hc hbc
    unfold changePassword
    simp [hnew, hcur, truthyS, hnp, hlen, hfind, hpw, hh, hc, hbc]

/-- Witness for C7 at the stored Alice row (stored hash present): the
first-time-set branch is vacuous, the required and incorrect branches are
exercised with `exCompare`. -/
theorem c7_change_password_policy_witness :
    (findById "u1" dbAlice = some aliceRow ∧ ("newpass1" : String) ≠ "" ∧
      ¬ ("newpass1" : String).length < 6) ∧
      ((aliceRow.provider = "google" → aliceRow.password = none →
        ∀ req : PwReq, req.newPassword = some "newpass1" →
          changePassword exHash exCompare "u1" req dbAlice =
            (.ok "Password set successfully",
              dbUpdate "u1"
                (fun v => { v with password := some (exHash "newpass1") })
                dbAlice)) ∧
      (∀ req : PwReq, req.newPassword = some "newpass1" →
        req.currentPassword = none →
        ∀ h : String, aliceRow.password = some h → h ≠ "" →
        changePassword exHash exCompare "u1" req dbAlice =
          (.err 400 "Current password is required", dbAlice)) ∧
      (∀ req : PwReq, req.newPassword = some "newpass1" →
        ∀ h c : String, req.currentPassword = some c →
        aliceRow.password = some h → h ≠ "" → c ≠ "" →
        exCompare c h = false →
        changePassword exHash exCompare "u1" req dbAlice =
          (.err 400 "Current password is incorrect", dbAlice))) :=
  ⟨⟨by decide, by decide, by decide⟩,
    c7_change_password_policy exHash exCompare "u1" dbAlice aliceRow
      "newpass1" (by decide) (by decide) (by decide)⟩

/-- The row rewrite `PUT /profile` performs for a name-plus-picture request
(no age or gender in the payload): name and picture replaced, and —
faithfully to the handler — `isProfileComplete` recomputed from the absent
payload fields, that is, set to `false`. -/
def attachFn (nm url : String) (v : User) : User :=
  { v with name := nm, profilePicture := some url, isProfileComplete := false }

/-- The row rewrite `DELETE /profile/picture` performs. -/
def clearPicFn (v : User) : User := { v with profilePicture := none }

/-- Claim C8: detaching when no picture is set fails with the
NothingToDelete error and changes nothing; attaching a picture (a PUT
/profile carrying a file whose upload returned `url`) and then detaching it
leaves the account's `pictureReference` unset again. -/
theorem c8_picture_roundtrip (uid : String) (db : DB) (u : User)
    (req : UpdateReq) (url : String) (hfind : findById uid db = some u)
    (hname : req.name ≠ "") (hna : req.age = none) (hng : req.gender = none)
    (hfile : req.file = some (some url)) (hurl : url ≠ "") :
    (u.profilePicture = none →
      detachPicture uid db = (.err 400 "No profile picture to delete", db)) ∧
    updateProfile req uid db =
      (.ok (sanitize (attachFn req.name url u)),
        dbUpdate uid (attachFn req.name url) db) ∧
    detachPicture uid (dbUpdate uid (attachFn req.name url) db) =
      (.ok (sanitize (clearPicFn (attachFn req.name url u))),
        dbUpdate uid clearPicFn (dbUpdate uid (attachFn req.name url) db)) ∧
    (findById uid
        (dbUpdate uid clearPicFn
          (dbUpdate uid (attachFn req.name url) db))).map
      (fun v => v.profilePicture) = some none := by
  have hdb1 : findById uid (dbUpdate uid (attachFn req.name url) db) =
      some (attachFn req.name url u) := by
    rw [findById_dbUpdate uid (attachFn req.name url) db (fun v => rfl),
      hfind]
    rfl
  refine ⟨?_, ?_, ?_, ?_⟩
  · intro hpic
    unfold detachPicture
    simp [hfind, hpic, truthyS]
  · unfold updateProfile
    rw [if_neg hname]
    simp only [hna, hng, hfile, hfind]
    rfl
  · unfold detachPicture
    simp only [hdb1]
    rw [if_neg (by simp [attachFn, truthyS, hurl])]
    rfl
  · rw [findById_dbUpdate uid clearPicFn _ (fun v => rfl), hdb1]
    rfl

/-- Witness for C8: Alice (no picture set) attaches `pic1` and detaches. -/
theorem c8_picture_roundtrip_witness :
    (findById "u1" dbAlice = some aliceRow ∧
      (UpdateReq.mk "Alicia" none none (some (some "pic1"))).name ≠ "" ∧
      ("pic1" : String) ≠ "") ∧
      ((aliceRow.profilePicture = none →
        detachPicture "u1" dbAlice =
          (.err 400 "No profile picture to delete", dbAlice)) ∧
      updateProfile (UpdateReq.mk "Alicia" none none (some (some "pic1")))
          "u1" dbAlice =
        (.ok (sanitize (attachFn
            (UpdateReq.mk "Alicia" none none (some (some "pic1"))).name
            "pic1" aliceRow)),
          dbUpdate "u1" (attachFn
            (UpdateReq.mk "Alicia" none none (some (some "pic1"))).name
            "pic1") dbAlice) ∧
      detachPicture "u1" (dbUpdate "u1" (attachFn
          (UpdateReq.mk "Alicia" none none (some (some "pic1"))).name
          "pic1") dbAlice) =
        (.ok (sanitize (clearPicFn (attachFn
            (UpdateReq.mk "Alicia" none none (some (some "pic1"))).name
            "pic1" aliceRow))),
          dbUpdate "u1" clearPicFn
            (dbUpdate "u1" (attachFn
              (UpdateReq.mk "Alicia" none none (some (some "pic1"))).name
              "pic1") dbAlice)) ∧
      (findById "u1"
          (dbUpdate "u1" clearPicFn
            (dbUpdate "u1" (attachFn
              (UpdateReq.mk "Alicia" none none (some (some "pic1"))).name
              "pic1") dbAlice))).map
        (fun v => v.profilePicture) = some none) :=
  ⟨⟨by decide, by decide, by decide⟩,
    c8_picture_roundtrip "u1" dbAlice aliceRow
      (UpdateReq.mk "Alicia" none none (some (some "pic1"))) "pic1"
      (by decide) (by decide) (by decide) (by decide) (by decide)
      (by decide)⟩

/-- Claim C9: the login response for an unregistered email and the login
response for a wrong password against an existing hashed account are the
same observable value — status 401, body message `Invalid credentials` — so
a caller cannot tell the two apart from the result. -/
theorem c9_login_error_indistinguishable (bc : String → String → Bool)
    (db : DB) (r1 r2 : LoginReq) (u : User) (h : String)
    (he1 : r1.email ≠ "") (hp1 : r1.password ≠ "")
    (hv1 : isValidEmail r1.email = true)
    (habsent : findByEmail (lowerStr r1.email) db = none)
    (he2 : r2.email ≠ "") (hp2 : r2.password ≠ "")
    (hv2 : isValidEmail r2.email = true)
    (hfound : findByEmail (lowerStr r2.email) db = some u)
    (hh : u.password = some h) (hh2 : h ≠ "") (hbc : bc r2.password h = false) :
    login bc r1 db = .err 401 "Invalid credentials" ∧
      login bc r2 db = .err 401 "Invalid credentials" ∧
      login bc r1 db = login bc r2 db := by
  have h1 : login bc r1 db = .err 401 "Invalid credentials" := by
    unfold login
    rw [if_neg (by simp [he1, hp1]), if_neg (by simp [hv1])]
    simp [habsent]
  have h2 : login bc r2 db = .err 401 "Invalid credentials" := by
    unfold login
    rw [if_neg (by simp [he2, hp2]), if_neg (by simp [hv2])]
    simp [hfound, hh, truthyS, hh2, hbc]
  exact ⟨h1, h2, by rw [h1, h2]⟩

/-- Witness for C9: the unregistered `x@b.com` and a wrong password for the
stored `a@b.com` produce the identical rejection. -/
theorem c9_login_error_indistinguishable_witness :
    (findByEmail (lowerStr "x@b.com") dbAlice = none ∧
      findByEmail (lowerStr "a@b.com") dbAlice = some aliceRow ∧
      exCompare "wrong" "secret1#h" = false) ∧
      (login exCompare ⟨"x@b.com", "pw"⟩ dbAlice =
          .err 401 "Invalid credentials" ∧
        login exCompare ⟨"a@b.com", "wrong"⟩ dbAlice =
          .err 401 "Invalid credentials" ∧
        login exCompare ⟨"x@b.com", "pw"⟩ dbAlice =
          login exCompare ⟨"a@b.com", "wrong"⟩ dbAlice) :=
  ⟨⟨by decide, by decide, by decide⟩,
    c9_login_error_indistinguishable exCompare dbAlice ⟨"x@b.com", "pw"⟩
      ⟨"a@b.com", "wrong"⟩ aliceRow "secret1#h" (by decide) (by decide)
      (by decide) (by decide) (by decide) (by decide) (by decide) (by decide)
      (by decide) (by decide) (by decide)⟩

/-- A successful login payload never carries a hash: the handler returns
`userWithoutPassword`. -/
theorem login_ok_password_none (bc : String → String → Bool) (r : LoginReq)
    (db : DB) (v : User) (hok : login bc r db = .ok v) : v.password = none := by
  unfold login at hok
  split at hok
  · exact absurd hok (by simp)
  split at hok
  · exact absurd hok (by simp)
  split at hok
  · exact absurd hok (by simp)
  split at hok
  · exact absurd hok (by simp)
  split at hok
  · exact absurd hok (by simp)
  · injection hok with hv
    rw [← hv]
    rfl

/-- A successful signup payload never carries a hash: the `select` of the
created row omits `password`. -/
theorem signup_created_password_none (bh : String → String) (nid : String)
    (req : SignupReq) (db : DB) (v : User)
    (hok : (signup bh nid req db).1 = .ok v) : v.password = none := by
  unfold signup at hok
  repeat' split at hok
  all_goals simp only [] at hok
  all_goals first
    | (injection hok with hv; rw [← hv]; rfl)
    | exact absurd hok (by simp)

/-- Claim C10: the authenticated `GET /profile` read returns the stored row
itself — its `select` includes `password: true` — so whenever a credential
hash is set it is part of the successful response; by contrast every
successful login or signup response carries no hash. -/
theorem c10_profile_exposes_hash (uid : String) (db : DB) (u : User)
    (hfind : findById uid db = some u) :
    getProfile uid db = .ok u ∧
    (∀ bc : String → String → Bool, ∀ r : LoginReq, ∀ v : User,
      login bc r db = .ok v → v.password = none) ∧
    (∀ bh : String → String, ∀ nid : String, ∀ req : SignupReq, ∀ v : User,
      (signup bh nid req db).1 = .ok v → v.password = none) := by
  refine ⟨?_, ?_, ?_⟩
  · unfold getProfile
    rw [hfind]
  · intro bc r v hok
    exact login_ok_password_none bc r db v hok
  · intro bh nid req v hok
    exact signup_created_password_none bh nid req db v hok

/-- Witness for C10: Alice's profile read returns her row, hash included. -/
theorem c10_profile_exposes_hash_witness :
    (findById "u1" dbAlice = some aliceRow ∧
      aliceRow.password = some "secret1#h") ∧
      (getProfile "u1" dbAlice = .ok aliceRow ∧
        (∀ bc : String → String → Bool, ∀ r : LoginReq, ∀ v : User,
          login bc r dbAlice = .ok v → v.password = none) ∧
        (∀ bh : String → String, ∀ nid : String, ∀ req : SignupReq,
          ∀ v : User,
          (signup bh nid req dbAlice).1 = .ok v → v.password = none)) :=
  ⟨⟨by decide, by decide⟩,
    c10_profile_exposes_hash "u1" dbAlice aliceRow (by decide)⟩

end AuthApp
